import Mathlib

/-!
Verification development for the bangumi-arrange script
(src/bangumi-arrange.py).

The script is a flat batch utility: it parses episode filenames with an
external library (anitopy), picks a season number from the directory path
or the parsed metadata, builds a canonical new name
"Title - SxxEyy.ext", and moves files on disk, guarded by a dry-run flag
and a ".bangumi_arranged" completion marker.

The embedding below follows the Python source line by line:

  * `AnimeInfo` models the dictionary returned by `anitopy.parse`; the
    parser itself is external, so every operation takes a `parse`
    function as a parameter.  Field values are kept as strings and
    Python `int(...)` is modelled by `pyInt`; an `int` failure is a
    raised exception.
  * Python string and path operations are modelled over the character
    list of the string (`String.data`), with structural recursion, so
    that every definition evaluates by kernel reduction.
  * The filesystem is modelled by `FS` (a set of directory paths and a
    set of file paths) together with a trace of mutating operations
    (`FSOp`).  `os.makedirs` is modelled as adding the target directory
    (its parent always exists in the usage of the script); `shutil.move`
    of a directory does not rewrite descendant paths, which no stated
    property depends on.  `shutil.move` raises (FileNotFoundError) when
    the source path does not exist, and nothing in
    `create_and_move_files` catches that.
  * A `RunState` holds the filesystem after a call, the trace of
    mutations it performed, and whether an uncaught exception escaped.
-/

/-! ### Character-list string primitives -/

/-- Python `s.startswith(pre)`. -/
def strStartsWith (s pre : String) : Bool :=
  pre.data.isPrefixOf s.data

/-- Python `s.endswith(suf)`. -/
def strEndsWith (s suf : String) : Bool :=
  suf.data.reverse.isPrefixOf s.data.reverse

/-- Drop the first `n` characters. -/
def strDropN (s : String) (n : Nat) : String :=
  String.mk (s.data.drop n)

/-- Number of characters. -/
def strLen (s : String) : Nat :=
  s.data.length

/-- Every character satisfies `p`. -/
def strAll (s : String) (p : Char → Bool) : Bool :=
  s.data.all p

/-- The character `c` occurs in `s`. -/
def strContains (s : String) (c : Char) : Bool :=
  s.data.contains c

/-- Python `s.strip()`: remove whitespace from both ends. -/
def strTrim (s : String) : String :=
  String.mk
    (((s.data.dropWhile Char.isWhitespace).reverse.dropWhile
      Char.isWhitespace).reverse)

/-- Python `s.split('.')` on the character list, from the right. -/
def splitOnDot : List Char → List (List Char)
  | [] => [[]]
  | c :: cs =>
    let r := splitOnDot cs
    if c = '.' then [] :: r
    else
      match r with
      | h :: t => (c :: h) :: t
      | [] => [[c]]

/-- Decimal digit character for `n < 10`. -/
def digitChar (n : Nat) : Char :=
  if n = 0 then '0' else if n = 1 then '1' else if n = 2 then '2'
  else if n = 3 then '3' else if n = 4 then '4' else if n = 5 then '5'
  else if n = 6 then '6' else if n = 7 then '7' else if n = 8 then '8'
  else '9'

/-- Decimal digits of `n`, fuelled so that it reduces structurally. -/
def natToCharsAux : Nat → Nat → List Char
  | 0, _ => []
  | fuel + 1, n =>
    if n < 10 then [digitChar n]
    else natToCharsAux fuel (n / 10) ++ [digitChar (n % 10)]

/-- Decimal representation of a natural number. -/
def natToString (n : Nat) : String :=
  String.mk (natToCharsAux (n + 1) n)

/-! ### The anitopy result and Python `int` -/

/-- Model of the dictionary returned by `anitopy.parse`: only the keys
the script reads.  A missing key is `none`. -/
structure AnimeInfo where
  anime_title : Option String := none
  anime_season : Option String := none
  season_number : Option String := none
  episode_number : Option String := none
  episode_number_alt : Option String := none
deriving DecidableEq, Repr

/-- Digits of a non-negative decimal literal, or `none`. -/
def pyIntDigits (u : String) : Option Nat :=
  if u.data.isEmpty || !u.data.all Char.isDigit then none
  else some (u.data.foldl (fun a c => a * 10 + (c.toNat - 48)) 0)

/-- Model of Python `int(s)` on a string: optional surrounding
whitespace, an optional sign, then decimal digits; anything else raises
`ValueError`, modelled as `none`. -/
def pyInt (s : String) : Option Int :=
  let t := strTrim s
  if strStartsWith t "-" then
    (pyIntDigits (strDropN t 1)).map (fun n => -(n : Int))
  else if strStartsWith t "+" then
    (pyIntDigits (strDropN t 1)).map (fun n => (n : Int))
  else
    (pyIntDigits t).map (fun n => (n : Int))

/-- Model of Python format with the two-digit zero padding spec used at
lines 51, 54 and 63: decimal digits, zero padded on the left to width
two (the sign counts toward the width). -/
def fmt2 (n : Int) : String :=
  if n < 0 then "-" ++ natToString n.natAbs
  else if n < 10 then "0" ++ natToString n.natAbs
  else natToString n.natAbs

/-! ### Path operations -/

/-- Model of `os.path.join(a, b)` for POSIX paths. -/
def joinPath (a b : String) : String :=
  if strStartsWith b "/" then b
  else if a = "" then b
  else if strEndsWith a "/" then a ++ b
  else a ++ "/" ++ b

/-- Model of `os.path.basename`: everything after the last slash. -/
def basename (p : String) : String :=
  String.mk ((p.data.reverse.takeWhile (fun c => c ≠ '/')).reverse)

/-- Model of `os.path.dirname`: everything up to the last slash, with
trailing slashes stripped unless the result is all slashes. -/
def dirname (p : String) : String :=
  match p.data.reverse.dropWhile (fun c => c ≠ '/') with
  | [] => ""
  | headRev =>
    if headRev.all (fun c => c = '/') then String.mk headRev.reverse
    else String.mk ((headRev.dropWhile (fun c => c = '/')).reverse)

/-- Model of `pathlib.Path(name).suffixes` for a bare filename: empty
when the name ends with a dot; otherwise strip leading dots, split on
".", and return every component after the first, each with a leading
dot. -/
def suffixes (name : String) : List String :=
  if strEndsWith name "." then []
  else
    let base := name.data.dropWhile (fun c => c = '.')
    ((splitOnDot base).drop 1).map (fun s => String.mk ('.' :: s))

/-! ### Season extraction (lines 8-21) -/

/-- Numeric value of a digit run (the regex capture group is passed to
Python `int`). -/
def digitsToNat (ds : List Char) : Nat :=
  ds.foldl (fun a c => a * 10 + (c.toNat - 48)) 0

/-- Scanner for the regex search of "Season " followed by one or more
digits (line 9), over the character list: find the leftmost position
where "Season " is followed by at least one digit, and return the value
of the maximal digit run there. -/
def seasonSearchL : List Char → Option Nat
  | [] => none
  | c :: cs =>
    if "Season ".data.isPrefixOf (c :: cs)
        && (match (c :: cs).drop 7 with
            | d :: _ => d.isDigit
            | [] => false) then
      some (digitsToNat (((c :: cs).drop 7).takeWhile Char.isDigit))
    else
      seasonSearchL cs

/-- Lines 8-12: `get_season_number_from_dir`. -/
def get_season_number_from_dir (directory_name : String) : Option Nat :=
  seasonSearchL directory_name.data

/-- Lines 14-21: `get_season_number`.  `none` models a raised
`ValueError` from `int(...)`; the callers always leave `default_season`
at its Python default of 1. -/
def get_season_number (anime_path : String) (anime_info : AnimeInfo)
    (default_season : Int) : Option Int :=
  match get_season_number_from_dir anime_path with
  | some n => some (n : Int)
  | none =>
    match anime_info.anime_season with
    | some s => pyInt s
    | none => some default_season

/-! ### Gathering episodes (lines 23-71) -/

/-- Supported video extensions (line 49). -/
def videoExts : List String := [".mkv", ".mp4", ".mka"]

/-- Supported subtitle extensions (line 52). -/
def subExts : List String := [".ass", ".srt"]

/-- Lines 43-47: the season number used for one episode, chosen before
the extension branch; `none` models a raised `ValueError`. -/
def seasonOf (has_season_subdirs : Bool) (default_season : Int)
    (info : AnimeInfo) : Option Int :=
  if has_season_subdirs then some default_season
  else
    match info.season_number with
    | some s => pyInt s
    | none => some default_season

/-- Lines 59-63: the directory an episode file is moved into. -/
def targetDirOf (anime_path : String) (has_season_subdirs : Bool)
    (anime_season : Int) : String :=
  if has_season_subdirs then anime_path
  else joinPath anime_path ("Season " ++ fmt2 anime_season)

/-- Lines 26-69, the body of the per-episode loop of
`gather_episodes`.  `Except.error ()` models an exception escaping the
body, `Except.ok none` a printed skip, and `Except.ok (some (old, new))`
a new entry for the rename map. -/
def processEpisode (anime_path anime_title : String)
    (default_season : Int) (has_season_subdirs : Bool)
    (parse : String → AnimeInfo) (episode : String) :
    Except Unit (Option (String × String)) :=
  let info := parse episode
  if info.episode_number.isNone || info.episode_number_alt.isSome then
    .ok none
  else
    let sfx0 := suffixes episode
    if sfx0.isEmpty then .ok none
    else
      let sfx := if sfx0.length > 2 then sfx0.drop (sfx0.length - 2) else sfx0
      let ext := sfx.getLast?.getD ""
      match seasonOf has_season_subdirs default_season info with
      | none => .error ()
      | some anime_season =>
        if videoExts.contains ext then
          match pyInt (info.episode_number.getD "") with
          | none => .error ()
          | some anime_episode =>
            .ok (some (joinPath anime_path episode,
              joinPath (targetDirOf anime_path has_season_subdirs anime_season)
                (anime_title ++ " - S" ++ fmt2 anime_season ++ "E"
                  ++ fmt2 anime_episode ++ ext)))
        else if subExts.contains ext then
          match pyInt (info.episode_number.getD "") with
          | none => .error ()
          | some anime_episode =>
            .ok (some (joinPath anime_path episode,
              joinPath (targetDirOf anime_path has_season_subdirs anime_season)
                (anime_title ++ " - S" ++ fmt2 anime_season ++ "E"
                  ++ fmt2 anime_episode ++ String.join sfx)))
        else .ok none

/-- One loop iteration of `gather_episodes` as seen from the rename
map: the `except` clause at lines 67-69 turns an exception into a
logged skip. -/
def gatherOne (anime_path anime_title : String) (default_season : Int)
    (has_season_subdirs : Bool) (parse : String → AnimeInfo)
    (episode : String) : Option (String × String) :=
  match processEpisode anime_path anime_title default_season
      has_season_subdirs parse episode with
  | .ok r => r
  | .error _ => none

/-- Lines 23-71: `gather_episodes`, over the entry list produced by
`os.listdir(anime_path)`.  The Python dict keyed by distinct old paths
is modelled as the association list in iteration order. -/
def gather_episodes (anime_path anime_title : String)
    (default_season : Int) (has_season_subdirs : Bool)
    (parse : String → AnimeInfo) (episodes : List String) :
    List (String × String) :=
  episodes.filterMap
    (gatherOne anime_path anime_title default_season has_season_subdirs parse)

/-! ### The filesystem model -/

/-- A snapshot of the relevant filesystem state: the set of existing
directory paths and the set of existing file paths. -/
structure FS where
  dirs : List String
  files : List String
deriving DecidableEq, Repr

/-- A mutating filesystem operation actually performed (prints are not
recorded). -/
inductive FSOp where
  | makedirs (dir : String)
  | move (src dst : String)
  | writeFile (path : String)
deriving DecidableEq, Repr

/-- The outcome of running a piece of the script: the filesystem
afterwards, the trace of mutations performed, and whether an uncaught
exception escaped. -/
structure RunState where
  fs : FS
  trace : List FSOp
  err : Bool
deriving DecidableEq, Repr

/-- `os.path.isdir`. -/
def FS.isdir (fs : FS) (p : String) : Bool :=
  fs.dirs.contains p

/-- `os.path.isfile`. -/
def FS.isfile (fs : FS) (p : String) : Bool :=
  fs.files.contains p

/-- `os.path.exists`. -/
def FS.pathExists (fs : FS) (p : String) : Bool :=
  fs.dirs.contains p || fs.files.contains p

/-- The name of `entry` relative to directory `p`, when `entry` is a
direct child of `p`. -/
def childName (p entry : String) : Option String :=
  let pre := if strEndsWith p "/" then p else p ++ "/"
  if strStartsWith entry pre then
    let rest := strDropN entry (strLen pre)
    if rest = "" || strContains rest '/' then none else some rest
  else none

/-- `os.listdir(p)`: the names of the direct children of `p` (in the
fixed order of the model; the order of the real call is unspecified). -/
def listdir (fs : FS) (p : String) : List String :=
  (fs.dirs ++ fs.files).filterMap (fun q => childName p q)

/-! ### Moving files (lines 73-83) -/

/-- Lines 76-83 for one rename pair, without the dry-run guard: create
the target directory when missing (`os.makedirs`), then move the file
(`shutil.move`).  Moving a path that exists as a file moves the file;
moving a path that exists as a directory moves the directory; a move
whose source does not exist raises FileNotFoundError (`err = true`). -/
def moveStep (oldPath newPath : String) (fs : FS) : RunState :=
  let target_dir := dirname newPath
  let fs1 : FS :=
    if fs.pathExists target_dir then fs else ⟨target_dir :: fs.dirs, fs.files⟩
  let tr1 : List FSOp :=
    if fs.pathExists target_dir then [] else [FSOp.makedirs target_dir]
  if fs1.files.contains oldPath then
    ⟨⟨fs1.dirs, newPath :: fs1.files.erase oldPath⟩,
      tr1 ++ [FSOp.move oldPath newPath], false⟩
  else if fs1.dirs.contains oldPath then
    ⟨⟨newPath :: fs1.dirs.erase oldPath, fs1.files⟩,
      tr1 ++ [FSOp.move oldPath newPath], false⟩
  else
    ⟨fs1, tr1, true⟩

/-- Lines 73-83: `create_and_move_files`.  Each pair is printed and,
unless `dry_run` is set, performed by `moveStep`; an exception from a
move escapes the loop, so the remaining pairs are not processed. -/
def create_and_move_files :
    List (String × String) → Bool → FS → RunState
  | [], _, fs => ⟨fs, [], false⟩
  | (oldPath, newPath) :: rest, dry_run, fs =>
    if dry_run then
      create_and_move_files rest dry_run fs
    else
      let st := moveStep oldPath newPath fs
      if st.err then st
      else
        let st2 := create_and_move_files rest dry_run st.fs
        ⟨st2.fs, st.trace ++ st2.trace, st2.err⟩

/-! ### The completion marker (lines 85-95) -/

/-- The path of the ".bangumi_arranged" sentinel inside `show_path`. -/
def markerPath (show_path : String) : String :=
  joinPath show_path ".bangumi_arranged"

/-- Lines 85-89: `check_arranged_marker`. -/
def check_arranged_marker (fs : FS) (show_path : String) : Bool :=
  fs.pathExists (markerPath show_path)

/-- Lines 91-95: `create_arranged_marker` writes the sentinel file
unless `dry_run` is set. -/
def create_arranged_marker (show_path : String) (dry_run : Bool)
    (fs : FS) : FS × List FSOp :=
  if dry_run then (fs, [])
  else (⟨fs.dirs, markerPath show_path :: fs.files⟩,
    [FSOp.writeFile (markerPath show_path)])

/-! ### Processing one show directory (lines 97-137) -/

/-- Lines 126-135: the loop over the subdirectories of `show_path`
taken when it contains no regular files.  `anime_info` is the result of
parsing the show directory name; an exception from `int(...)` inside
`get_season_number` or from a move escapes the loop. -/
def processSubdirs (show_path : String) (anime_info : AnimeInfo)
    (anime_title : String) (has_season_subdirs : Bool) (dry_run : Bool)
    (parse : String → AnimeInfo) :
    List String → FS → RunState
  | [], fs => ⟨fs, [], false⟩
  | directory :: rest, fs =>
    let anime_path := joinPath show_path directory
    if fs.isdir anime_path then
      match get_season_number anime_path anime_info 1 with
      | none => ⟨fs, [], true⟩
      | some default_season =>
        let st := create_and_move_files
          (gather_episodes anime_path anime_title default_season
            has_season_subdirs parse (listdir fs anime_path))
          dry_run fs
        if st.err then st
        else
          let st2 := processSubdirs show_path anime_info anime_title
            has_season_subdirs dry_run parse rest st.fs
          ⟨st2.fs, st.trace ++ st2.trace, st2.err⟩
    else
      processSubdirs show_path anime_info anime_title has_season_subdirs
        dry_run parse rest fs

/-- Lines 117-135 without the marker bookkeeping: gather and move the
files of `show_path` itself when it directly contains regular files,
and otherwise process each subdirectory. -/
def processCore (show_path anime_title : String) (anime_info : AnimeInfo)
    (dry_run : Bool) (parse : String → AnimeInfo) (fs : FS) : RunState :=
  let entries := listdir fs show_path
  let files_in_show_path :=
    entries.filter (fun f => fs.isfile (joinPath show_path f))
  let has_season_subdirs :=
    entries.any (fun d =>
      fs.isdir (joinPath show_path d) && strStartsWith d "Season "
        && (match (strDropN d 7).data with
            | c :: _ => c.isDigit
            | [] => false))
  if !files_in_show_path.isEmpty then
    match get_season_number show_path anime_info 1 with
    | none => ⟨fs, [], true⟩
    | some default_season =>
      create_and_move_files
        (gather_episodes show_path anime_title default_season
          has_season_subdirs parse (listdir fs show_path))
        dry_run fs
  else
    processSubdirs show_path anime_info anime_title has_season_subdirs
      dry_run parse entries fs

/-- Lines 97-137: `process_show_directory`.  The marker check, the
directory check and the title check each return early without touching
the filesystem; otherwise the directory is processed and, when no
exception escaped, the marker is written last. -/
def process_show_directory (show_path : String) (dry_run : Bool)
    (parse : String → AnimeInfo) (fs : FS) : RunState :=
  if check_arranged_marker fs show_path then ⟨fs, [], false⟩
  else if !fs.isdir show_path then ⟨fs, [], false⟩
  else
    match (parse (basename show_path)).anime_title with
    | none => ⟨fs, [], false⟩
    | some anime_title =>
      let st := processCore show_path anime_title
        (parse (basename show_path)) dry_run parse fs
      if st.err then st
      else
        let res := create_arranged_marker show_path dry_run st.fs
        ⟨res.1, st.trace ++ res.2, false⟩

/-! ### The command line (lines 139-157) -/

/-- The parsed argument namespace of `main`. -/
structure Args where
  show_dir : Option String
  shows : Option String
  dry_run : Bool
deriving DecidableEq, Repr

/-- Generic behaviour of an argparse mutually exclusive group: at most
one member may be supplied, and when the group is `required`, at least
one must be. -/
def mutexGroupOk (required : Bool) (present : List Bool) : Bool :=
  decide (present.count true ≤ 1) && (!required || present.any id)

/-- Lines 140-146: whether argument parsing succeeds for the configured
parser: `--show-dir` and `--shows` form a required mutually exclusive
group, `--dry-run` is a free store-true flag. -/
def argsAccepted (a : Args) : Bool :=
  mutexGroupOk true [a.show_dir.isSome, a.shows.isSome]

/-- Python truthiness of an optional string (`if args.show_dir:`). -/
def truthyOpt : Option String → Bool
  | some s => !(s = "")
  | none => false

/-- Lines 154-157: the loop over the entries of the `--shows`
directory; an exception escaping `process_show_directory` aborts the
loop. -/
def showsLoop (shows : String) (dry_run : Bool)
    (parse : String → AnimeInfo) :
    List String → FS → RunState
  | [], fs => ⟨fs, [], false⟩
  | dir_name :: rest, fs =>
    let sp := joinPath shows dir_name
    if fs.isdir sp then
      let st := process_show_directory sp dry_run parse fs
      if st.err then st
      else
        let st2 := showsLoop shows dry_run parse rest st.fs
        ⟨st2.fs, st.trace ++ st2.trace, st2.err⟩
    else
      showsLoop shows dry_run parse rest fs

/-- Lines 148-157: the body of `main` after argument parsing.  The
second component records that the run was terminated early on an
invalid `--shows` path (the script calls `sys.exit`; as the module
never imports `sys` this in fact raises `NameError`, but either way the
run terminates there with an error message and no filesystem change). -/
def mainRun (a : Args) (parse : String → AnimeInfo) (fs : FS) :
    RunState × Bool :=
  if truthyOpt a.show_dir then
    (process_show_directory (a.show_dir.getD "") a.dry_run parse fs, false)
  else if truthyOpt a.shows then
    let shows := a.shows.getD ""
    if !fs.isdir shows then (⟨fs, [], false⟩, true)
    else (showsLoop shows a.dry_run parse (listdir fs shows) fs, false)
  else (⟨fs, [], false⟩, false)

/-! ### A concrete sample environment, used by the witnesses -/

/-- A concrete stand-in for `anitopy.parse` used in concrete runs. -/
def parse0 (s : String) : AnimeInfo :=
  if s = "MyShow" then { anime_title := some "MyShow" }
  else if s = "MyShow 01.mkv" then { episode_number := some "01" }
  else if s = "MyShow 02.sc.ass" then { episode_number := some "02" }
  else {}

/-- A concrete filesystem: the show directory "/r/MyShow" holding one
video file. -/
def fs0 : FS :=
  ⟨["/r", "/r/MyShow"], ["/r/MyShow/MyShow 01.mkv"]⟩

/-- The per-file skip conditions of `gather_episodes` (lines 29-31,
33-36, 55-57): no parsed episode number, an alternative episode number,
no suffix, or an unsupported final extension. -/
def skipsEpisode (parse : String → AnimeInfo) (e : String) : Bool :=
  (parse e).episode_number.isNone || (parse e).episode_number_alt.isSome ||
  (suffixes e).isEmpty ||
  !((videoExts ++ subExts).contains ((suffixes e).getLast?.getD ""))

/-- A concrete stand-in for `anitopy.parse` on a subtitle file carrying
a language tag before its extension. -/
def parse1 (s : String) : AnimeInfo :=
  if s = "T 1.sc.ass" then { episode_number := some "1" } else {}

example :
    gather_episodes "/a" "T" 1 false
      (fun s => if s = "T 1.mkv" then { episode_number := some "1" } else {})
      ["T 1.mkv", "junk"]
    = [("/a/T 1.mkv", "/a/Season 01/T - S01E01.mkv")] := by decide

/-! ### Helper lemmas -/

/-- Trimming to the last two suffixes (lines 38-39) is dropping all but
the last two, also when there are at most two. -/
theorem trim_suffixes_eq (l : List String) :
    (if l.length > 2 then l.drop (l.length - 2) else l)
      = l.drop (l.length - 2) := by
  split
  · rfl
  · have h2 : l.length - 2 = 0 := by omega
    rw [h2, List.drop_zero]

/-- Dropping all but the last two elements keeps the last element. -/
theorem getLast?_trim (l : List String) (h : l ≠ []) :
    (l.drop (l.length - 2)).getLast? = l.getLast? := by
  rw [List.getLast?_drop]
  have : ¬ l.length ≤ l.length - 2 := by
    have : 0 < l.length := List.length_pos.mpr h
    omega
  simp [this]

/-- A dry run of `create_and_move_files` changes nothing and cannot
raise. -/
theorem create_and_move_files_dry (renames : List (String × String))
    (fs : FS) : create_and_move_files renames true fs = ⟨fs, [], false⟩ := by
  induction renames generalizing fs with
  | nil => rfl
  | cons p rest ih =>
    obtain ⟨o, n⟩ := p
    simpa [create_and_move_files] using ih fs

/-- A single move step performs no file write. -/
theorem moveStep_no_write (o n : String) (fs : FS) (q : String) :
    FSOp.writeFile q ∉ (moveStep o n fs).trace := by
  unfold moveStep
  dsimp only
  repeat' split
  all_goals simp_all [List.mem_append]

/-- Every `move` performed by a single move step is the given pair. -/
theorem moveStep_move (o n : String) (fs : FS) (s t : String)
    (h : FSOp.move s t ∈ (moveStep o n fs).trace) : s = o ∧ t = n := by
  unfold moveStep at h
  dsimp only at h
  repeat' split at h
  all_goals simp_all [List.mem_append]

/-- `create_and_move_files` only ever performs `makedirs` and `move`
operations, never a file write. -/
theorem create_and_move_files_no_write (renames : List (String × String))
    (dry_run : Bool) (fs : FS) (q : String) :
    FSOp.writeFile q ∉ (create_and_move_files renames dry_run fs).trace := by
  induction renames generalizing fs with
  | nil => simp [create_and_move_files]
  | cons p rest ih =>
    obtain ⟨o, n⟩ := p
    by_cases hd : dry_run
    · subst hd
      simpa [create_and_move_files] using ih fs
    · have hd' : dry_run = false := by simpa using hd
      subst hd'
      simp only [create_and_move_files, Bool.false_eq_true, if_false]
      split
      · exact moveStep_no_write o n fs q
      · intro hmem
        rcases List.mem_append.mp hmem with hmem | hmem
        · exact moveStep_no_write o n fs q hmem
        · exact ih _ hmem

/-- Every `move` performed by `create_and_move_files` comes from an
entry of the rename map. -/
theorem create_and_move_files_move_mem (renames : List (String × String))
    (dry_run : Bool) (fs : FS) (s t : String)
    (h : FSOp.move s t ∈ (create_and_move_files renames dry_run fs).trace) :
    (s, t) ∈ renames := by
  induction renames generalizing fs with
  | nil => simp [create_and_move_files] at h
  | cons p rest ih =>
    obtain ⟨o, n⟩ := p
    by_cases hd : dry_run
    · subst hd
      simp only [create_and_move_files] at h
      exact List.mem_cons_of_mem _ (ih fs h)
    · have hd' : dry_run = false := by simpa using hd
      subst hd'
      simp only [create_and_move_files, Bool.false_eq_true, if_false] at h
      split at h
      · obtain ⟨hs, ht⟩ := moveStep_move o n fs s t h
        subst hs; subst ht
        exact List.mem_cons_self _ _
      · rcases List.mem_append.mp h with hmem | hmem
        · obtain ⟨hs, ht⟩ := moveStep_move o n fs s t hmem
          subst hs; subst ht
          exact List.mem_cons_self _ _
        · exact List.mem_cons_of_mem _ (ih _ hmem)

/-- A dry run of the subdirectory loop changes no filesystem state and
performs no operation (it can still raise from `int(...)` inside
`get_season_number`). -/
theorem processSubdirs_dry (show_path : String) (info : AnimeInfo)
    (anime_title : String) (hs : Bool) (parse : String → AnimeInfo)
    (l : List String) (fs : FS) :
    (processSubdirs show_path info anime_title hs true parse l fs).fs = fs ∧
    (processSubdirs show_path info anime_title hs true parse l fs).trace
      = [] := by
  induction l generalizing fs with
  | nil => exact ⟨rfl, rfl⟩
  | cons d rest ih =>
    simp only [processSubdirs]
    split
    · split
      · exact ⟨rfl, rfl⟩
      · rw [create_and_move_files_dry]
        simpa using ih fs
    · exact ih fs

/-- The subdirectory loop performs no file write. -/
theorem processSubdirs_no_write (show_path : String) (info : AnimeInfo)
    (anime_title : String) (hs dry_run : Bool)
    (parse : String → AnimeInfo) (l : List String) (fs : FS) (q : String) :
    FSOp.writeFile q ∉
      (processSubdirs show_path info anime_title hs dry_run parse l fs).trace := by
  induction l generalizing fs with
  | nil => simp [processSubdirs]
  | cons d rest ih =>
    simp only [processSubdirs]
    split
    · split
      · simp
      · split
        · exact create_and_move_files_no_write _ _ _ _
        · intro hmem
          rcases List.mem_append.mp hmem with hmem | hmem
          · exact create_and_move_files_no_write _ _ _ _ hmem
          · exact ih _ hmem
    · exact ih fs

/-- A dry run of `processCore` changes no filesystem state and performs
no operation. -/
theorem processCore_dry (show_path anime_title : String)
    (info : AnimeInfo) (parse : String → AnimeInfo) (fs : FS) :
    (processCore show_path anime_title info true parse fs).fs = fs ∧
    (processCore show_path anime_title info true parse fs).trace = [] := by
  unfold processCore
  dsimp only
  split
  · split
    · exact ⟨rfl, rfl⟩
    · rw [create_and_move_files_dry]
      exact ⟨rfl, rfl⟩
  · exact processSubdirs_dry _ _ _ _ _ _ _

/-- `processCore` performs no file write. -/
theorem processCore_no_write (show_path anime_title : String)
    (info : AnimeInfo) (dry_run : Bool) (parse : String → AnimeInfo)
    (fs : FS) (q : String) :
    FSOp.writeFile q ∉
      (processCore show_path anime_title info dry_run parse fs).trace := by
  unfold processCore
  dsimp only
  split
  · split
    · simp
    · exact create_and_move_files_no_write _ _ _ _
  · exact processSubdirs_no_write _ _ _ _ _ _ _ _ _

/-- Evaluation of the per-episode body when the metadata passes every
guard: the parsed episode number and the season resolve to integers, no
alternative episode number is present, and the name has at least one
suffix.  The result depends only on which extension class the final
suffix falls into. -/
theorem processEpisode_eval (ap anime_title : String) (ds : Int)
    (hs : Bool) (parse : String → AnimeInfo) (e : String)
    (info : AnimeInfo) (es : String) (ep season : Int)
    (hinfo : parse e = info)
    (hepn : info.episode_number = some es)
    (halt : info.episode_number_alt = none)
    (hpy : pyInt es = some ep)
    (hsfx : suffixes e ≠ [])
    (hseason : seasonOf hs ds info = some season) :
    processEpisode ap anime_title ds hs parse e =
      (if videoExts.contains ((suffixes e).getLast?.getD "") then
        .ok (some (joinPath ap e,
          joinPath (targetDirOf ap hs season)
            (anime_title ++ " - S" ++ fmt2 season ++ "E" ++ fmt2 ep
              ++ (suffixes e).getLast?.getD "")))
      else if subExts.contains ((suffixes e).getLast?.getD "") then
        .ok (some (joinPath ap e,
          joinPath (targetDirOf ap hs season)
            (anime_title ++ " - S" ++ fmt2 season ++ "E" ++ fmt2 ep
              ++ String.join ((suffixes e).drop ((suffixes e).length - 2)))))
      else .ok none) := by
  have hne : (suffixes e).isEmpty = false := by
    simpa using hsfx
  unfold processEpisode
  rw [hinfo]
  dsimp only
  rw [hepn, halt, hne]
  simp only [Option.isNone_some, Option.isSome_none, Bool.or_false,
    Bool.false_eq_true, if_false, Option.getD_some]
  rw [trim_suffixes_eq, getLast?_trim _ hsfx, hseason, hpy]

/-- A skipped file contributes nothing to the rename map (whether it is
skipped with a log line or its processing raised first). -/
theorem gatherOne_eq_none_of_skips (ap anime_title : String) (ds : Int)
    (hs : Bool) (parse : String → AnimeInfo) (e : String)
    (hskip : skipsEpisode parse e = true) :
    gatherOne ap anime_title ds hs parse e = none := by
  unfold skipsEpisode at hskip
  unfold gatherOne processEpisode
  dsimp only
  rcases Bool.or_eq_true_iff.mp hskip with h | hext
  · rcases Bool.or_eq_true_iff.mp h with h | hemp
    · rcases Bool.or_eq_true_iff.mp h with hnone | halt
      · simp [hnone]
      · simp [halt]
    · by_cases h1 : ((parse e).episode_number.isNone
          || (parse e).episode_number_alt.isSome) = true
      · simp [h1]
      · simp [h1, hemp]
  · by_cases h1 : ((parse e).episode_number.isNone
        || (parse e).episode_number_alt.isSome) = true
    · simp [h1]
    · simp only [h1, Bool.false_eq_true, if_false]
      by_cases hemp : (suffixes e).isEmpty = true
      · simp [hemp]
      · have hsfx : suffixes e ≠ [] := by simpa using hemp
        have hemp' : (suffixes e).isEmpty = false := by simpa using hemp
        simp only [hemp', Bool.false_eq_true, if_false]
        rw [trim_suffixes_eq, getLast?_trim _ hsfx]
        have hc : (videoExts ++ subExts).contains
            ((suffixes e).getLast?.getD "") = false := by
          simpa using hext
        simp only [List.contains, List.elem_eq_mem, decide_eq_false_iff_not,
          List.mem_append, not_or] at hc
        cases hS : seasonOf hs ds (parse e) with
        | none => simp [hS]
        | some season => simp [hS, hc.1, hc.2]

/-- When the scanned character list contains "Season " followed by a
nonempty digit run, the scanner finds a match. -/
theorem seasonSearchL_isSome (a ds b : List Char) (hne : ds ≠ [])
    (hdig : ∀ c ∈ ds, c.isDigit = true) :
    (seasonSearchL (a ++ "Season ".data ++ ds ++ b)).isSome = true := by
  have hS : ("Season ".data : List Char) = ['S','e','a','s','o','n',' '] :=
    rfl
  induction a with
  | nil =>
    cases ds with
    | nil => exact absurd rfl hne
    | cons d ds2 =>
      have hd : d.isDigit = true := hdig d (List.mem_cons_self _ _)
      simp only [hS, List.nil_append, List.cons_append]
      rw [seasonSearchL]
      simp [List.isPrefixOf, hd]
  | cons c a2 ih =>
    simp only [List.cons_append]
    rw [seasonSearchL]
    split
    · simp
    · simpa using ih

example :
    process_show_directory "/r/MyShow" false parse0 fs0 =
      ⟨⟨["/r/MyShow/Season 01", "/r", "/r/MyShow"],
        ["/r/MyShow/.bangumi_arranged",
          "/r/MyShow/Season 01/MyShow - S01E01.mkv"]⟩,
        [FSOp.makedirs "/r/MyShow/Season 01",
          FSOp.move "/r/MyShow/MyShow 01.mkv"
            "/r/MyShow/Season 01/MyShow - S01E01.mkv",
          FSOp.writeFile "/r/MyShow/.bangumi_arranged"],
        false⟩ := by decide

/-- Early return at the marker check (lines 100-103). -/
theorem process_skip_marker (p : String) (dry : Bool)
    (parse : String → AnimeInfo) (fs : FS)
    (h : check_arranged_marker fs p = true) :
    process_show_directory p dry parse fs = ⟨fs, [], false⟩ := by
  unfold process_show_directory
  simp [h]

/-- Early return at the directory check (lines 105-107): whether or not
the marker check already returned, nothing is touched. -/
theorem process_skip_not_dir (p : String) (dry : Bool)
    (parse : String → AnimeInfo) (fs : FS) (h : fs.isdir p = false) :
    process_show_directory p dry parse fs = ⟨fs, [], false⟩ := by
  unfold process_show_directory
  by_cases hm : check_arranged_marker fs p = true
  · simp [hm]
  · simp [hm, h]

/-- Early return at the title check (lines 111-113). -/
theorem process_skip_no_title (p : String) (dry : Bool)
    (parse : String → AnimeInfo) (fs : FS)
    (ht : (parse (basename p)).anime_title = none) :
    process_show_directory p dry parse fs = ⟨fs, [], false⟩ := by
  unfold process_show_directory
  by_cases hm : check_arranged_marker fs p = true
  · simp [hm]
  · by_cases hd : fs.isdir p = true
    · simp [hm, hd, ht]
    · simp [hm, hd]

/-- When all three early returns are passed, `process_show_directory`
is the core processing followed by the conditional marker write. -/
theorem process_eq_of_checks (p : String) (dry : Bool)
    (parse : String → AnimeInfo) (fs : FS) (T : String)
    (hm : check_arranged_marker fs p = false)
    (hd : fs.isdir p = true)
    (ht : (parse (basename p)).anime_title = some T) :
    process_show_directory p dry parse fs =
      (if (processCore p T (parse (basename p)) dry parse fs).err then
        processCore p T (parse (basename p)) dry parse fs
      else
        ⟨(create_arranged_marker p dry
            (processCore p T (parse (basename p)) dry parse fs).fs).1,
          (processCore p T (parse (basename p)) dry parse fs).trace ++
            (create_arranged_marker p dry
              (processCore p T (parse (basename p)) dry parse fs).fs).2,
          false⟩) := by
  unfold process_show_directory
  simp [hm, hd, ht]

/-- After a non-dry marker write the marker check succeeds. -/
theorem check_marker_after_write (p : String) (fs : FS) :
    check_arranged_marker ⟨fs.dirs, markerPath p :: fs.files⟩ p = true := by
  simp [check_arranged_marker, FS.pathExists, List.contains,
    List.elem_eq_mem]

/-! ### Claim theorems -/

/-- C2: for every directory path containing "Season " followed by
digits, the scanner finds a season number and `get_season_number`
returns the scanned number regardless of the parsed anime info; for a
path without such a substring it returns the integer value of the
"anime_season" field when present, and otherwise the default season 1. -/
theorem claim_C2_get_season_number :
    (∀ a ds b, ds ≠ [] → (∀ c ∈ ds, c.isDigit = true) →
      (get_season_number_from_dir
        (String.mk (a ++ "Season ".data ++ ds ++ b))).isSome = true) ∧
    (∀ path info n, get_season_number_from_dir path = some n →
      get_season_number path info 1 = some (n : Int)) ∧
    (∀ path info s k, get_season_number_from_dir path = none →
      info.anime_season = some s → pyInt s = some k →
      get_season_number path info 1 = some k) ∧
    (∀ path info, get_season_number_from_dir path = none →
      info.anime_season = none → get_season_number path info 1 = some 1) := by
  refine ⟨?_, ?_, ?_, ?_⟩
  · intro a ds b hne hdig
    exact seasonSearchL_isSome a ds b hne hdig
  · intro path info n h
    simp [get_season_number, h]
  · intro path info s k h hsea hk
    simp [get_season_number, h, hsea, hk]
  · intro path info h hsea
    simp [get_season_number, h, hsea]

/-- Witness for C2 at concrete inputs. -/
theorem claim_C2_witness :
    (get_season_number_from_dir
      (String.mk ("/x/".data ++ "Season ".data ++ ['0', '3'] ++ []))).isSome
      = true ∧
    get_season_number "/x/Season 03" {} 1 = some 3 ∧
    get_season_number "/y" { anime_season := some "2" } 1 = some 2 ∧
    get_season_number "/y" {} 1 = some 1 :=
  ⟨claim_C2_get_season_number.1 "/x/".data ['0', '3'] [] (by decide)
      (by decide),
    claim_C2_get_season_number.2.1 "/x/Season 03" {} 3 (by decide),
    claim_C2_get_season_number.2.2.1 "/y" { anime_season := some "2" } "2" 2
      (by decide) rfl (by decide),
    claim_C2_get_season_number.2.2.2 "/y" {} (by decide) rfl⟩

/-- C8: the configured CLI (a required mutually exclusive group holding
`--show-dir` and `--shows`, plus the free `--dry-run` flag) rejects an
invocation giving both path flags, rejects one giving neither, and
accepts exactly one. -/
theorem claim_C8_cli_flags :
    (∀ s1 s2 d, argsAccepted ⟨some s1, some s2, d⟩ = false) ∧
    (∀ d, argsAccepted ⟨none, none, d⟩ = false) ∧
    (∀ s d, argsAccepted ⟨some s, none, d⟩ = true
      ∧ argsAccepted ⟨none, some s, d⟩ = true) :=
  ⟨fun _ _ _ => rfl, fun _ => rfl, fun _ _ => ⟨rfl, rfl⟩⟩

/-- C4: with the dry-run flag set nothing is mutated:
`create_and_move_files` performs no makedirs and no move,
`create_arranged_marker` writes nothing, and a whole
`process_show_directory` run leaves the filesystem unchanged with an
empty operation trace. -/
theorem claim_C4_dry_run_no_mutation :
    (∀ renames fs, create_and_move_files renames true fs = ⟨fs, [], false⟩) ∧
    (∀ p fs, create_arranged_marker p true fs = (fs, [])) ∧
    (∀ p parse fs,
      (process_show_directory p true parse fs).fs = fs ∧
      (process_show_directory p true parse fs).trace = []) := by
  refine ⟨create_and_move_files_dry, fun p fs => rfl, ?_⟩
  intro p parse fs
  by_cases hm : check_arranged_marker fs p = true
  · rw [process_skip_marker p true parse fs hm]
    exact ⟨rfl, rfl⟩
  · by_cases hd : fs.isdir p = true
    · cases ht : (parse (basename p)).anime_title with
      | none =>
        rw [process_skip_no_title p true parse fs ht]
        exact ⟨rfl, rfl⟩
      | some T =>
        rw [process_eq_of_checks p true parse fs T (by simpa using hm) hd ht]
        have hcore := processCore_dry p T (parse (basename p)) parse fs
        split
        · exact hcore
        · exact ⟨by simp [create_arranged_marker, hcore.1],
            by simp [create_arranged_marker, hcore.2]⟩
    · rw [process_skip_not_dir p true parse fs (by simpa using hd)]
      exact ⟨rfl, rfl⟩

/-- C3: a show directory carrying the ".bangumi_arranged" marker is
returned from untouched (no rename, no mkdir, no marker write), and a
second run after any completed non-dry run performs no filesystem
change. -/
theorem claim_C3_marker_idempotent :
    (∀ fs p dry parse, check_arranged_marker fs p = true →
      process_show_directory p dry parse fs = ⟨fs, [], false⟩) ∧
    (∀ fs p parse d2,
      (process_show_directory p false parse fs).err = false →
      process_show_directory p d2 parse
          (process_show_directory p false parse fs).fs
        = ⟨(process_show_directory p false parse fs).fs, [], false⟩) := by
  refine ⟨fun fs p dry parse h => process_skip_marker p dry parse fs h, ?_⟩
  intro fs p parse d2 herr
  by_cases hm : check_arranged_marker fs p = true
  · rw [process_skip_marker p false parse fs hm]
    exact process_skip_marker p d2 parse fs hm
  · by_cases hd : fs.isdir p = true
    · cases ht : (parse (basename p)).anime_title with
      | none =>
        rw [process_skip_no_title p false parse fs ht]
        exact process_skip_no_title p d2 parse fs ht
      | some T =>
        have heq := process_eq_of_checks p false parse fs T
          (by simpa using hm) hd ht
        by_cases he :
            (processCore p T (parse (basename p)) false parse fs).err = true
        · rw [heq] at herr
          simp [he] at herr
        · rw [heq]
          simp only [he, Bool.false_eq_true, if_false]
          simp only [create_arranged_marker, Bool.false_eq_true, if_false]
          exact process_skip_marker p d2 parse _
            (check_marker_after_write p _)
    · rw [process_skip_not_dir p false parse fs (by simpa using hd)]
      exact process_skip_not_dir p d2 parse fs (by simpa using hd)

/-- Witness for C3 at concrete inputs: a directory already carrying the
marker is untouched, and re-running after the completed run on the
sample filesystem is a no-op. -/
theorem claim_C3_witness :
    process_show_directory "/r/MyShow" false parse0
        ⟨["/r", "/r/MyShow"], ["/r/MyShow/.bangumi_arranged"]⟩
      = ⟨⟨["/r", "/r/MyShow"], ["/r/MyShow/.bangumi_arranged"]⟩, [], false⟩ ∧
    process_show_directory "/r/MyShow" false parse0
        (process_show_directory "/r/MyShow" false parse0 fs0).fs
      = ⟨(process_show_directory "/r/MyShow" false parse0 fs0).fs, [],
          false⟩ :=
  ⟨claim_C3_marker_idempotent.1
      ⟨["/r", "/r/MyShow"], ["/r/MyShow/.bangumi_arranged"]⟩
      "/r/MyShow" false parse0 (by decide),
    claim_C3_marker_idempotent.2 fs0 "/r/MyShow" parse0 false (by decide)⟩

/-- C6: a run whose root path is not a directory terminates without
touching the filesystem: with `--shows` the program stops with an error
(the `sys.exit` line; `sys` is in fact unimported, so a `NameError` is
raised, and either way the run ends there with an error message), and
with `--show-dir` the directory check returns without change. -/
theorem claim_C6_invalid_root :
    (∀ a parse fs, truthyOpt a.show_dir = false →
      truthyOpt a.shows = true → fs.isdir (a.shows.getD "") = false →
      mainRun a parse fs = (⟨fs, [], false⟩, true)) ∧
    (∀ p dry parse fs, fs.isdir p = false →
      process_show_directory p dry parse fs = ⟨fs, [], false⟩) := by
  refine ⟨?_, fun p dry parse fs h => process_skip_not_dir p dry parse fs h⟩
  intro a parse fs h1 h2 h3
  unfold mainRun
  simp [h1, h2, h3]

/-- Witness for C6 at concrete inputs. -/
theorem claim_C6_witness :
    mainRun ⟨none, some "/nope", false⟩ parse0 fs0
      = (⟨fs0, [], false⟩, true) ∧
    process_show_directory "/nope" false parse0 fs0 = ⟨fs0, [], false⟩ :=
  ⟨claim_C6_invalid_root.1 ⟨none, some "/nope", false⟩ parse0 fs0 rfl rfl
      (by decide),
    claim_C6_invalid_root.2 "/nope" false parse0 fs0 (by decide)⟩

/-- C7: a show directory that passes the marker, directory and title
checks and whose non-dry run completes gets the ".bangumi_arranged"
marker written, and the marker write is the last operation in the
trace of that directory: every rename/move precedes it and no other
write occurs. -/
theorem claim_C7_marker_written_last :
    ∀ p parse fs T,
      check_arranged_marker fs p = false →
      fs.isdir p = true →
      (parse (basename p)).anime_title = some T →
      (process_show_directory p false parse fs).err = false →
      ∃ pre, (process_show_directory p false parse fs).trace
          = pre ++ [FSOp.writeFile (markerPath p)] ∧
        ∀ q, FSOp.writeFile q ∉ pre := by
  intro p parse fs T hm hd ht herr
  have heq := process_eq_of_checks p false parse fs T hm hd ht
  by_cases he :
      (processCore p T (parse (basename p)) false parse fs).err = true
  · rw [heq] at herr
    simp [he] at herr
  · rw [heq]
    simp only [he, Bool.false_eq_true, if_false]
    refine ⟨(processCore p T (parse (basename p)) false parse fs).trace,
      ?_, ?_⟩
    · simp [create_arranged_marker]
    · intro q
      exact processCore_no_write p T (parse (basename p)) false parse fs q

/-- Witness for C7 on the sample filesystem. -/
theorem claim_C7_witness :
    ∃ pre, (process_show_directory "/r/MyShow" false parse0 fs0).trace
        = pre ++ [FSOp.writeFile (markerPath "/r/MyShow")] ∧
      ∀ q, FSOp.writeFile q ∉ pre :=
  claim_C7_marker_written_last "/r/MyShow" parse0 fs0 "MyShow" (by decide)
    (by decide) (by decide) (by decide)

/-- Counterexample to C5 as stated: in the move phase a per-file
failure is not caught.  With the first move raising (its source does
not exist) and the second pair perfectly movable, the run errors out
and the second file is never moved, so processing does not continue
with the remaining files. -/
theorem claim_C5_counterexample :
    (create_and_move_files
        [("/d/a.mkv", "/d/Season 01/A - S01E01.mkv"),
          ("/d/b.mkv", "/d/Season 01/A - S01E02.mkv")] false
        ⟨["/d"], ["/d/b.mkv"]⟩).err = true ∧
    FSOp.move "/d/b.mkv" "/d/Season 01/A - S01E02.mkv" ∉
      (create_and_move_files
        [("/d/a.mkv", "/d/Season 01/A - S01E01.mkv"),
          ("/d/b.mkv", "/d/Season 01/A - S01E02.mkv")] false
        ⟨["/d"], ["/d/b.mkv"]⟩).trace ∧
    FS.isfile ⟨["/d"], ["/d/b.mkv"]⟩ "/d/b.mkv" = true := by decide

/-- C5 amended: exceptions in the metadata/naming phase
(`gather_episodes`) are caught per file and processing continues with
the remaining files, while an exception in the move phase
(`create_and_move_files`) is not caught: the remaining pairs are
abandoned. -/
theorem claim_C5_gather_continues_moves_abort :
    (∀ ap T ds hs parse xs e ys,
      processEpisode ap T ds hs parse e = .error () →
      gather_episodes ap T ds hs parse (xs ++ e :: ys)
        = gather_episodes ap T ds hs parse xs
          ++ gather_episodes ap T ds hs parse ys) ∧
    (∀ o n rest fs, o ∉ fs.files → o ∉ fs.dirs → o ≠ dirname n →
      create_and_move_files ((o, n) :: rest) false fs
        = create_and_move_files [(o, n)] false fs) := by
  constructor
  · intro ap T ds hs parse xs e ys herr
    have h1 : gatherOne ap T ds hs parse e = none := by
      unfold gatherOne
      rw [herr]
    simp [gather_episodes, List.filterMap_append, List.filterMap_cons, h1]
  · intro o n rest fs h1 h2 h3
    have hstep : (moveStep o n fs).err = true := by
      unfold moveStep
      dsimp only
      by_cases hex : fs.pathExists (dirname n) = true
      · simp [hex, List.contains, List.elem_eq_mem, h1, h2]
      · simp [hex, List.contains, List.elem_eq_mem, h1, h2, h3]
    have hstop : ∀ r : List (String × String),
        create_and_move_files ((o, n) :: r) false fs = moveStep o n fs := by
      intro r
      simp [create_and_move_files, hstep]
    rw [hstop rest, hstop []]

/-- Witness for the amended C5 at concrete inputs: a file whose parsed
episode number is not numeric raises inside the loop body and the
neighbouring files still get gathered, while a failing move abandons
the rest of the map. -/
theorem claim_C5_witness :
    gather_episodes "/a" "T" 1 false
        (fun s => if s = "bad.mkv" then { episode_number := some "one" }
          else if s = "T 1.mkv" then { episode_number := some "1" }
          else {})
        (["T 1.mkv"] ++ "bad.mkv" :: ["T 1.mkv"])
      = gather_episodes "/a" "T" 1 false
          (fun s => if s = "bad.mkv" then { episode_number := some "one" }
            else if s = "T 1.mkv" then { episode_number := some "1" }
            else {})
          ["T 1.mkv"]
        ++ gather_episodes "/a" "T" 1 false
          (fun s => if s = "bad.mkv" then { episode_number := some "one" }
            else if s = "T 1.mkv" then { episode_number := some "1" }
            else {})
          ["T 1.mkv"] ∧
    create_and_move_files
        [("/d/a.mkv", "/d/x.mkv"), ("/d/b.mkv", "/d/y.mkv")] false
        ⟨["/d"], ["/d/b.mkv"]⟩
      = create_and_move_files [("/d/a.mkv", "/d/x.mkv")] false
        ⟨["/d"], ["/d/b.mkv"]⟩ :=
  ⟨claim_C5_gather_continues_moves_abort.1 "/a" "T" 1 false
      (fun s => if s = "bad.mkv" then { episode_number := some "one" }
        else if s = "T 1.mkv" then { episode_number := some "1" }
        else {})
      ["T 1.mkv"] "bad.mkv" ["T 1.mkv"] rfl,
    claim_C5_gather_continues_moves_abort.2 "/d/a.mkv" "/d/x.mkv"
      [("/d/b.mkv", "/d/y.mkv")] ⟨["/d"], ["/d/b.mkv"]⟩ (by decide)
      (by decide) (by decide)⟩

/-- Counterexample to C1 as stated: for a subtitle file with a second
suffix (a language tag), the produced target name is not
"{title} - S{season:02}E{episode:02}{ext}" with `ext` the final
extension; the last two suffixes are kept instead. -/
theorem claim_C1_counterexample :
    ("/a/T 1.sc.ass", "/a/Season 01/T - S01E01.ass") ∉
      gather_episodes "/a" "T" 1 false parse1 ["T 1.sc.ass"] ∧
    gather_episodes "/a" "T" 1 false parse1 ["T 1.sc.ass"]
      = [("/a/T 1.sc.ass", "/a/Season 01/T - S01E01.sc.ass")] := by decide

/-- C1 amended: every listed file whose parsed metadata yields an
integer episode number (and no alternative episode number), whose name
has a suffix, whose season resolves to an integer, and whose final
extension is a supported video or subtitle extension is mapped to
"{title} - S{season:02}E{episode:02}{tail}" inside the
"Season {season:02}" subdirectory of the directory (or the directory
itself when the show directory already has Season subdirectories),
where `tail` is the final extension for a video file and the
concatenation of the last at most two suffixes for a subtitle file. -/
theorem claim_C1_gather_maps_supported :
    ∀ ap T ds hs parse episodes e info es ep season,
      e ∈ episodes →
      parse e = info →
      info.episode_number = some es →
      info.episode_number_alt = none →
      pyInt es = some ep →
      suffixes e ≠ [] →
      seasonOf hs ds info = some season →
      (videoExts.contains ((suffixes e).getLast?.getD "")
        || subExts.contains ((suffixes e).getLast?.getD "")) = true →
      (joinPath ap e,
        joinPath (targetDirOf ap hs season)
          (T ++ " - S" ++ fmt2 season ++ "E" ++ fmt2 ep ++
            (if videoExts.contains ((suffixes e).getLast?.getD "") = true
              then (suffixes e).getLast?.getD ""
              else String.join
                ((suffixes e).drop ((suffixes e).length - 2)))))
        ∈ gather_episodes ap T ds hs parse episodes := by
  intro ap T ds hs parse episodes e info es ep season hmem hinfo hepn halt
    hpy hsfx hseason hext
  have heval := processEpisode_eval ap T ds hs parse e info es ep season
    hinfo hepn halt hpy hsfx hseason
  have hone : gatherOne ap T ds hs parse e
      = some (joinPath ap e,
        joinPath (targetDirOf ap hs season)
          (T ++ " - S" ++ fmt2 season ++ "E" ++ fmt2 ep ++
            (if videoExts.contains ((suffixes e).getLast?.getD "") = true
              then (suffixes e).getLast?.getD ""
              else String.join
                ((suffixes e).drop ((suffixes e).length - 2))))) := by
    unfold gatherOne
    rw [heval]
    by_cases hv :
        videoExts.contains ((suffixes e).getLast?.getD "") = true
    · have hvm : (suffixes e).getLast?.getD "" ∈ videoExts := by
        simpa [List.contains, List.elem_eq_mem] using hv
      simp [hv, hvm]
    · have hvm : (suffixes e).getLast?.getD "" ∉ videoExts := by
        simpa [List.contains, List.elem_eq_mem] using hv
      have hsub : subExts.contains ((suffixes e).getLast?.getD "")
          = true := by
        rcases Bool.or_eq_true_iff.mp hext with h | h
        · exact absurd h hv
        · exact h
      have hsm : (suffixes e).getLast?.getD "" ∈ subExts := by
        simpa [List.contains, List.elem_eq_mem] using hsub
      simp [hv, hvm, hsm]
  exact List.mem_filterMap.mpr ⟨e, hmem, hone⟩

/-- Witness for the amended C1 on a concrete video file. -/
theorem claim_C1_witness :
    ("/r/MyShow/MyShow 01.mkv",
      joinPath (targetDirOf "/r/MyShow" false 1)
        ("MyShow" ++ " - S" ++ fmt2 1 ++ "E" ++ fmt2 1 ++
          (if videoExts.contains
              ((suffixes "MyShow 01.mkv").getLast?.getD "") = true
            then (suffixes "MyShow 01.mkv").getLast?.getD ""
            else String.join
              ((suffixes "MyShow 01.mkv").drop
                ((suffixes "MyShow 01.mkv").length - 2)))))
      ∈ gather_episodes "/r/MyShow" "MyShow" 1 false parse0
        ["MyShow 01.mkv"] :=
  claim_C1_gather_maps_supported "/r/MyShow" "MyShow" 1 false parse0
    ["MyShow 01.mkv"] "MyShow 01.mkv" { episode_number := some "01" } "01"
    1 1 (by decide) (by decide) rfl rfl (by decide) (by decide) (by decide)
    (by decide)

/-- C9: under the same guards, a video file keeps only its single final
extension in the new name, while a subtitle file with more than one
suffix keeps its last two suffixes (for example a language tag such as
".sc.ass"). -/
theorem claim_C9_suffix_preservation :
    ∀ ap T ds hs parse e info es ep season,
      parse e = info →
      info.episode_number = some es →
      info.episode_number_alt = none →
      pyInt es = some ep →
      suffixes e ≠ [] →
      seasonOf hs ds info = some season →
      (videoExts.contains ((suffixes e).getLast?.getD "") = true →
        gatherOne ap T ds hs parse e
          = some (joinPath ap e,
            joinPath (targetDirOf ap hs season)
              (T ++ " - S" ++ fmt2 season ++ "E" ++ fmt2 ep
                ++ (suffixes e).getLast?.getD ""))) ∧
      ((suffixes e).length ≥ 2 →
        subExts.contains ((suffixes e).getLast?.getD "") = true →
        gatherOne ap T ds hs parse e
          = some (joinPath ap e,
            joinPath (targetDirOf ap hs season)
              (T ++ " - S" ++ fmt2 season ++ "E" ++ fmt2 ep
                ++ String.join
                  ((suffixes e).drop ((suffixes e).length - 2))))) := by
  intro ap T ds hs parse e info es ep season hinfo hepn halt hpy hsfx
    hseason
  have heval := processEpisode_eval ap T ds hs parse e info es ep season
    hinfo hepn halt hpy hsfx hseason
  constructor
  · intro hv
    have hvm : (suffixes e).getLast?.getD "" ∈ videoExts := by
      simpa [List.contains, List.elem_eq_mem] using hv
    unfold gatherOne
    rw [heval]
    simp [hv, hvm]
  · intro hlen hsub
    have hm : (suffixes e).getLast?.getD "" ∈ subExts := by
      simpa [List.contains, List.elem_eq_mem] using hsub
    have hvm : (suffixes e).getLast?.getD "" ∉ videoExts := by
      have : (suffixes e).getLast?.getD "" = ".ass"
          ∨ (suffixes e).getLast?.getD "" = ".srt" := by
        simpa [subExts] using hm
      rcases this with h | h <;> rw [h] <;> decide
    have hv : videoExts.contains ((suffixes e).getLast?.getD "")
        = false := by
      simpa [List.contains, List.elem_eq_mem] using hvm
    unfold gatherOne
    rw [heval]
    simp [hv, hvm, hm]

/-- Witness for C9 on a concrete video file and a concrete subtitle
file with a language tag. -/
theorem claim_C9_witness :
    gatherOne "/r/MyShow" "MyShow" 1 false parse0 "MyShow 01.mkv"
      = some ("/r/MyShow/MyShow 01.mkv",
        "/r/MyShow/Season 01/MyShow - S01E01.mkv") ∧
    gatherOne "/r/MyShow" "MyShow" 1 false parse0 "MyShow 02.sc.ass"
      = some ("/r/MyShow/MyShow 02.sc.ass",
        "/r/MyShow/Season 01/MyShow - S01E02.sc.ass") :=
  ⟨(claim_C9_suffix_preservation "/r/MyShow" "MyShow" 1 false parse0
      "MyShow 01.mkv" { episode_number := some "01" } "01" 1 1 rfl rfl rfl
      (by decide) (by decide) (by decide)).1 (by decide),
    (claim_C9_suffix_preservation "/r/MyShow" "MyShow" 1 false parse0
      "MyShow 02.sc.ass" { episode_number := some "02" } "02" 2 1 rfl rfl
      rfl (by decide) (by decide) (by decide)).2 (by decide) (by decide)⟩

/-- C10: a file skipped for a missing or alternative episode number,
for having no suffix, or for an unsupported final extension contributes
nothing to the rename map, and every move performed by the run takes
its source from the rename map, so such a file is never moved. -/
theorem claim_C10_skipped_files_left_alone :
    (∀ ap T ds hs parse e, skipsEpisode parse e = true →
      gatherOne ap T ds hs parse e = none) ∧
    (∀ ap T ds hs parse xs e ys, skipsEpisode parse e = true →
      gather_episodes ap T ds hs parse (xs ++ e :: ys)
        = gather_episodes ap T ds hs parse (xs ++ ys)) ∧
    (∀ renames dry fs s t,
      FSOp.move s t ∈ (create_and_move_files renames dry fs).trace →
      (s, t) ∈ renames) := by
  refine ⟨fun ap T ds hs parse e h =>
      gatherOne_eq_none_of_skips ap T ds hs parse e h, ?_,
    create_and_move_files_move_mem⟩
  intro ap T ds hs parse xs e ys h
  simp [gather_episodes, List.filterMap_append, List.filterMap_cons,
    gatherOne_eq_none_of_skips ap T ds hs parse e h]

/-- Witness for C10 at concrete inputs: a text file is excluded from
the map and does not change the gathered result, and a performed move
always originates from the map. -/
theorem claim_C10_witness :
    gatherOne "/r/MyShow" "MyShow" 1 false parse0 "readme.txt" = none ∧
    gather_episodes "/r/MyShow" "MyShow" 1 false parse0
        (["MyShow 01.mkv"] ++ "readme.txt" :: [])
      = gather_episodes "/r/MyShow" "MyShow" 1 false parse0
        (["MyShow 01.mkv"] ++ []) ∧
    ("/d/x", "/d/y") ∈ [("/d/x", "/d/y")] :=
  ⟨claim_C10_skipped_files_left_alone.1 "/r/MyShow" "MyShow" 1 false
      parse0 "readme.txt" (by decide),
    claim_C10_skipped_files_left_alone.2.1 "/r/MyShow" "MyShow" 1 false
      parse0 ["MyShow 01.mkv"] "readme.txt" [] (by decide),
    claim_C10_skipped_files_left_alone.2.2 [("/d/x", "/d/y")] false
      ⟨["/d"], ["/d/x"]⟩ "/d/x" "/d/y" (by decide)⟩
